import Mathlib

/-!
Verification of the libbtrfsutil Python binding core
(src/libbtrfsutil/python/module.c): a shallow embedding of the
path/descriptor resolution layer (path_converter, fd_converter), the
module method table, and the module initialization, together with
theorems checking the specification's testable properties.

Conventions of the embedding:
* Python objects relevant to resolution are modelled by PyObj.
  A unicode object carries the result of its filesystem encoding
  (PyUnicode_FSConverter can fail, or can produce bytes containing a
  zero byte).  A generic object carries its type name, an optional
  integer value (present exactly when PyIndex_Check would succeed),
  and an optional fspath conversion hook (present exactly when
  _PyObject_LookupSpecial finds an fspath method); the hook either
  raises an error or returns another object, as in CPython.
* Byte strings are lists of naturals; strlen counts bytes up to the
  first zero, as the C strlen does on the buffer PyBytes_AS_STRING
  returns.
* Raising a Python exception and returning 0 from a converter is
  modelled as Except.error carrying the exception class and message.
  The spec's error taxonomy maps to Python classes as the binding
  realises it: InvalidArgument is ValueError, Overflow is
  OverflowError, TypeError is TypeError, EncodingError is
  UnicodeEncodeError, and the ControlError category is the
  BtrfsUtilError type the module creates.
* Machine integers: the C long is 64-bit and int is 32-bit, so
  LONG_MAX, LONG_MIN and INT_MAX are spelled out; PyLong_AsLongAndOverflow
  returns the value and an overflow flag exactly as documented.
* Resolution performs no system call: every function here is pure and
  an Except.error result is produced before any SysRequest value (the
  model of a filesystem control request) is constructed.
-/

namespace BtrfsUtilPy

/-- Python exception classes the binding can raise or subclass. -/
inductive ErrClass where
  | typeError
  | valueError
  | overflowError
  | osError
  | unicodeEncodeError
  deriving DecidableEq, Repr

/-- A raised Python exception: its class and its message. -/
structure PyErr where
  cls : ErrClass
  msg : String
  deriving DecidableEq, Repr

/-- Model of the Python objects that can reach path_converter. -/
inductive PyObj where
  | pyStr (enc : Except PyErr (List Nat))
  | pyBytes (b : List Nat)
  | pyObjGen (tyName : String) (index : Option Int) (fspath : Option (Except PyErr PyObj))

/-- The tp_name of the object's type, as used in the TypeError message. -/
def PyObj.typeName : PyObj → String
  | .pyStr _ => "str"
  | .pyBytes _ => "bytes"
  | .pyObjGen n _ _ => n

/-- PyIndex_Check: the object supports integer conversion. -/
def PyIndex_Check : PyObj → Bool
  | .pyObjGen _ (some _) _ => true
  | _ => false

/-- PyBytes_Check. -/
def PyBytes_Check : PyObj → Bool
  | .pyBytes _ => true
  | _ => false

/-- PyUnicode_Check. -/
def PyUnicode_Check : PyObj → Bool
  | .pyStr _ => true
  | _ => false

/-- PyUnicode_FSConverter: encode a unicode object to filesystem bytes. -/
def PyUnicode_FSConverter : PyObj → Except PyErr (List Nat)
  | .pyStr enc => enc
  | _ => .ok []

/-- The byte contents of a bytes object (PyBytes_AS_STRING together with
PyBytes_GET_SIZE). -/
def PyBytes_bytes : PyObj → List Nat
  | .pyBytes b => b
  | _ => []

/-- The integer value an index-supporting object converts to. -/
def PyObj.indexVal : PyObj → Int
  | .pyObjGen _ (some n) _ => n
  | _ => 0

/-- Lookup of the fspath special method on the object's type. -/
def fspath_lookup : PyObj → Option (Except PyErr PyObj)
  | .pyObjGen _ _ h => h
  | _ => none

/-- INT_MAX for a 32-bit int. -/
def INT_MAX : Int := 2 ^ 31 - 1

/-- LONG_MAX for a 64-bit long. -/
def LONG_MAX : Int := 2 ^ 63 - 1

/-- LONG_MIN for a 64-bit long. -/
def LONG_MIN : Int := -(2 ^ 63)

/-- Embedding of fd_converter (module.c lines 22-42) applied to the integer
value of the object: PyLong_AsLongAndOverflow yields the value and an
overflow flag; positive overflow or a value above INT_MAX raises
OverflowError, negative overflow or a negative value raises ValueError,
anything else is stored as the descriptor. -/
def fd_converter (n : Int) : Except PyErr Int :=
  let overflow : Int := if n > LONG_MAX then 1 else if n < LONG_MIN then -1 else 0
  let tmp : Int := if overflow = 0 then n else -1
  if overflow > 0 ∨ tmp > INT_MAX then
    .error ⟨.overflowError, "fd is greater than maximum"⟩
  else if overflow < 0 ∨ tmp < 0 then
    .error ⟨.valueError, "fd is negative"⟩
  else
    .ok tmp

/-- The fields of struct path_arg that a successful conversion fills in:
the descriptor, the path bytes (none models a NULL char pointer), and
the stored length. -/
structure path_arg where
  fd : Int
  path : Option (List Nat)
  length : Nat
  deriving DecidableEq, Repr

/-- C strlen on the buffer holding the byte string: the number of bytes
before the first zero byte. -/
def strlen (b : List Nat) : Nat := (b.takeWhile (fun c => c != 0)).length

/-- The accepted-type list named in the TypeError message, which depends on
whether a descriptor is allowed at this call site. -/
def accepted_types (allow_fd : Bool) : String :=
  if allow_fd then "string, bytes, os.PathLike, or integer"
  else "string, bytes, or os.PathLike"

/-- The message PyErr_Format produces at the err_format label. -/
def err_format_msg (allow_fd : Bool) (tyName : String) : String :=
  "expected " ++ accepted_types allow_fd ++ ", not " ++ tyName

/-- The part of path_converter after the fspath step: the
is_unicode / is_bytes / is_index dispatch, the embedded-zero-byte scan on
the converted bytes, and the filling of the path_arg fields
(module.c lines 82-120). -/
def path_converter_body (allow_fd : Bool) (o : PyObj)
    (is_index is_bytes is_unicode : Bool) : Except PyErr path_arg :=
  let bytesRes : Except PyErr (Option (List Nat)) :=
    if is_unicode then (PyUnicode_FSConverter o).map some
    else if is_bytes then .ok (some (PyBytes_bytes o))
    else .ok none
  match bytesRes with
  | .error e => .error e
  | .ok none =>
    if is_index then
      match fd_converter o.indexVal with
      | .error e => .error e
      | .ok fd => .ok ⟨fd, none, 0⟩
    else
      .error ⟨.typeError, err_format_msg allow_fd o.typeName⟩
  | .ok (some b) =>
    if b.length ≠ strlen b then
      .error ⟨.typeError, "path has embedded nul character"⟩
    else
      .ok ⟨-1, some b, b.length⟩

/-- Embedding of path_converter (module.c lines 44-126) on a non-NULL
object: compute the is_index, is_bytes, is_unicode flags; when none
holds, look up the fspath hook (no hook raises the TypeError of the
err_format label; a hook that raises propagates its error; a hook result
is re-examined as bytes or unicode with is_index now false); then run
the dispatch of path_converter_body. -/
def path_converter (allow_fd : Bool) (o : PyObj) : Except PyErr path_arg :=
  let is_index := allow_fd && PyIndex_Check o
  let is_bytes := PyBytes_Check o
  let is_unicode := PyUnicode_Check o
  if !is_index && !is_bytes && !is_unicode then
    match fspath_lookup o with
    | none => .error ⟨.typeError, err_format_msg allow_fd o.typeName⟩
    | some (.error e) => .error e
    | some (.ok o2) =>
      path_converter_body allow_fd o2 false (PyBytes_Check o2) (PyUnicode_Check o2)
  else
    path_converter_body allow_fd o is_index is_bytes is_unicode

/-- One entry of the module's method table: the exposed name and the
docstring. -/
structure PyMethodDef where
  ml_name : String
  ml_doc : String
  deriving DecidableEq, Repr

/-- The btrfsutil_methods table (module.c lines 134-157), docstrings as
written in the source. -/
def btrfsutil_methods : List PyMethodDef :=
  [ ⟨"sync",
      "sync(path)\n\nSync a specific Btrfs filesystem.\n\nArguments:\npath -- string, bytes, path-like object, or open file descriptor"⟩,
    ⟨"start_sync",
      "start_sync(path) -> int\n\nStart a sync on a specific Btrfs filesystem and return the\ntransaction ID.\n\nArguments:\npath -- string, bytes, path-like object, or open file descriptor"⟩,
    ⟨"wait_sync",
      "wait_sync(path, transid=0)\n\nWait for a transaction to sync.\nArguments:\npath -- string, bytes, path-like object, or open file descriptor\ntransid -- int transaction ID to wait for, or zero for the current\ntransaction"⟩ ]

/-- Whether the pattern occurs as a contiguous run inside the list. -/
def containsSub (pat : List Char) : List Char → Bool
  | [] => pat.isEmpty
  | c :: rest => pat.isPrefixOf (c :: rest) || containsSub pat rest

/-- Whether the pattern occurs as a substring of the string. -/
def strContains (s pat : String) : Bool :=
  containsSub pat.toList s.toList

/-- Whether a method's docstring documents acceptance of an open file
descriptor as the path argument. -/
def docAcceptsFd (m : PyMethodDef) : Bool :=
  strContains m.ml_doc "open file descriptor"

/-- Model of a Python type object: its name and the base exception class
its tp_base slot points at. -/
structure PyTypeObjectModel where
  tp_name : String
  tp_base : Option ErrClass
  deriving DecidableEq, Repr

/-- The module object PyInit_btrfsutil builds: the module name, the
BtrfsUtilError type after its tp_base slot is set, and the method
table. -/
structure ModuleModel where
  name : String
  errorType : PyTypeObjectModel
  methods : List PyMethodDef

/-- The statically initialized BtrfsUtilError type before module
initialization: no base assigned yet. -/
def BtrfsUtilError_type_initial : PyTypeObjectModel :=
  ⟨"btrfsutil.BtrfsUtilError", none⟩

/-- Embedding of PyInit_btrfsutil (module.c lines 167-195): set the
tp_base of BtrfsUtilError to PyExc_OSError, then create the module with
the method table and install the error type. -/
def PyInit_btrfsutil : ModuleModel :=
  let errTy := { BtrfsUtilError_type_initial with tp_base := some ErrClass.osError }
  ⟨"btrfsutil", errTy, btrfsutil_methods⟩

/-- Modelled from the spec: the structured Control Error of the error
model (constructed in error.c, which is not part of this fragment),
carrying the operation name, the failing path when known, and the
system error code. -/
structure ControlError where
  operation : String
  path : Option (List Nat)
  system_error_code : Int
  deriving DecidableEq, Repr

/-- Modelled from the spec: construction of a Control Error from its
three components. -/
def mkControlError (op : String) (p : Option (List Nat)) (c : Int) : ControlError :=
  ⟨op, p, c⟩

/-- A filesystem control request handed to the operating system: the model
stops at this boundary, so a function that returns an Except.error has
verifiably not contacted the filesystem. -/
inductive SysRequest where
  | syncReq (h : path_arg)
  | startSyncReq (h : path_arg)
  | waitSyncReq (h : path_arg) (transid : Nat)
  deriving DecidableEq, Repr

/-- Modelled from the spec: the WaitSync operation (its body is in
filesystem.c, not part of this fragment; the docstring in the method
table fixes the signature wait_sync(path, transid=0)).  An omitted
transaction id defaults to 0; a negative transaction id is rejected
with InvalidArgument (ValueError) before any system interaction; then
the target is resolved (descriptors allowed, per the docstring) and the
wait request for the transaction is issued. -/
def wait_sync (target : PyObj) (transid : Option Int) : Except PyErr SysRequest :=
  let t : Int := transid.getD 0
  if t < 0 then
    .error ⟨.valueError, "transaction id must be non-negative"⟩
  else
    match path_converter true target with
    | .error e => .error e
    | .ok h => .ok (.waitSyncReq h t.toNat)

end BtrfsUtilPy

namespace BtrfsUtilPy

/-! Helper lemmas about the embedding. -/

lemma strlen_eq_length_iff (b : List Nat) : strlen b = b.length ↔ 0 ∉ b := by
  induction b with
  | nil => simp [strlen]
  | cons a t ih =>
    by_cases ha : a = 0
    · subst ha
      simp [strlen, List.takeWhile_cons]
    · have ha2 : ¬ (0 = a) := fun hh => ha hh.symm
      simp only [strlen, List.takeWhile_cons] at ih ⊢
      simp [ha, ha2, ih]

lemma fd_converter_spec (x : Int) :
    fd_converter x =
      if INT_MAX < x then Except.error ⟨.overflowError, "fd is greater than maximum"⟩
      else if x < 0 then Except.error ⟨.valueError, "fd is negative"⟩
      else Except.ok x := by
  simp only [fd_converter, INT_MAX, LONG_MAX, LONG_MIN]
  norm_num
  split_ifs <;> first | rfl | omega

lemma path_converter_bytes (af : Bool) (b : List Nat) :
    path_converter af (.pyBytes b) =
      if 0 ∈ b then Except.error ⟨.typeError, "path has embedded nul character"⟩
      else Except.ok ⟨-1, some b, b.length⟩ := by
  by_cases hb : 0 ∈ b
  · have hl : b.length ≠ strlen b := fun h =>
      ((strlen_eq_length_iff b).mp h.symm) hb
    simp [path_converter, path_converter_body, PyIndex_Check, PyBytes_Check,
      PyUnicode_Check, PyBytes_bytes, hb, hl]
  · have hl : ¬ b.length ≠ strlen b := by
      have := (strlen_eq_length_iff b).mpr hb
      omega
    simp [path_converter, path_converter_body, PyIndex_Check, PyBytes_Check,
      PyUnicode_Check, PyBytes_bytes, hb, hl]

lemma path_converter_str (af : Bool) (b : List Nat) :
    path_converter af (.pyStr (.ok b)) =
      if 0 ∈ b then Except.error ⟨.typeError, "path has embedded nul character"⟩
      else Except.ok ⟨-1, some b, b.length⟩ := by
  by_cases hb : 0 ∈ b
  · have hl : b.length ≠ strlen b := fun h =>
      ((strlen_eq_length_iff b).mp h.symm) hb
    simp [path_converter, path_converter_body, PyIndex_Check, PyBytes_Check,
      PyUnicode_Check, PyUnicode_FSConverter, Except.map, hb, hl]
  · have hl : ¬ b.length ≠ strlen b := by
      have := (strlen_eq_length_iff b).mpr hb
      omega
    simp [path_converter, path_converter_body, PyIndex_Check, PyBytes_Check,
      PyUnicode_Check, PyUnicode_FSConverter, Except.map, hb, hl]

lemma path_converter_index (n : String) (x : Int) (h : Option (Except PyErr PyObj)) :
    path_converter true (.pyObjGen n (some x) h) =
      match fd_converter x with
      | .error e => Except.error e
      | .ok fd => Except.ok ⟨fd, none, 0⟩ := by
  simp [path_converter, path_converter_body, PyIndex_Check, PyBytes_Check,
    PyUnicode_Check, PyObj.indexVal]

lemma path_converter_hook (af : Bool) (n : String) (idx : Option Int)
    (h : Except PyErr PyObj) (hidx : (af && idx.isSome) = false) :
    path_converter af (.pyObjGen n idx (some h)) =
      match h with
      | .error e => Except.error e
      | .ok o2 => path_converter_body af o2 false (PyBytes_Check o2) (PyUnicode_Check o2) := by
  have hic : (af && PyIndex_Check (.pyObjGen n idx (some h))) = false := by
    cases idx <;> simp_all [PyIndex_Check]
  cases h with
  | error e =>
    simp [path_converter, PyBytes_Check, PyUnicode_Check, fspath_lookup, hic]
  | ok o2 =>
    simp [path_converter, PyBytes_Check, PyUnicode_Check, fspath_lookup, hic]

lemma fd_converter_ok_nonneg (n fd : Int) (h : fd_converter n = .ok fd) : 0 ≤ fd := by
  rw [fd_converter_spec] at h
  split_ifs at h with h1 h2
  injection h with h3
  omega

end BtrfsUtilPy

namespace BtrfsUtilPy

lemma path_converter_body_ok (af : Bool) (o : PyObj) (ii ib iu : Bool) (r : path_arg)
    (h : path_converter_body af o ii ib iu = .ok r) :
    (0 ≤ r.fd ∧ r.path = none) ∨ (r.fd = -1 ∧ ∃ b : List Nat, r.path = some b) := by
  simp only [path_converter_body] at h
  split at h
  · exact Except.noConfusion h
  · split at h
    · split at h
      · exact Except.noConfusion h
      · rename_i fd hfd
        injection h with h2
        subst h2
        exact Or.inl ⟨fd_converter_ok_nonneg _ _ hfd, rfl⟩
    · exact Except.noConfusion h
  · split at h
    · exact Except.noConfusion h
    · rename_i b hb hl
      injection h with h2
      subst h2
      exact Or.inr ⟨rfl, b, rfl⟩

/-- C1 (counterexample): resolving the concrete byte path [47, 0, 110]
fails with the TypeError class, which is distinct from the ValueError
class realising InvalidArgument, so the embedded-terminator failure is
not an InvalidArgument-class error as the claim states. -/
theorem embedded_nul_not_invalid_argument :
    path_converter false (.pyBytes [47, 0, 110]) =
      .error ⟨.typeError, "path has embedded nul character"⟩
    ∧ ErrClass.typeError ≠ ErrClass.valueError :=
  ⟨rfl, by decide⟩

/-- C1 (amended): for every byte path, and every textual path whose
filesystem encoding succeeds, resolution fails exactly when the byte
sequence (after any text-to-bytes conversion) contains an embedded zero
byte, regardless of position, and the failure is the TypeError-class
error "path has embedded nul character" rather than InvalidArgument;
paths without such a byte are accepted.  Resolution is pure, so no
system call is attempted on failure. -/
theorem path_converter_embedded_nul (b : List Nat) (af : Bool) :
    (0 ∈ b → path_converter af (.pyBytes b) =
      .error ⟨.typeError, "path has embedded nul character"⟩)
    ∧ (0 ∉ b → path_converter af (.pyBytes b) = .ok ⟨-1, some b, b.length⟩)
    ∧ (0 ∈ b → path_converter af (.pyStr (.ok b)) =
      .error ⟨.typeError, "path has embedded nul character"⟩)
    ∧ (0 ∉ b → path_converter af (.pyStr (.ok b)) = .ok ⟨-1, some b, b.length⟩) := by
  refine ⟨fun hb => ?_, fun hb => ?_, fun hb => ?_, fun hb => ?_⟩
  · rw [path_converter_bytes, if_pos hb]
  · rw [path_converter_bytes, if_neg hb]
  · rw [path_converter_str, if_pos hb]
  · rw [path_converter_str, if_neg hb]

theorem path_converter_embedded_nul_witness :
    path_converter false (.pyBytes [47, 0]) =
      .error ⟨.typeError, "path has embedded nul character"⟩
    ∧ path_converter false (.pyBytes [47, 110]) = .ok ⟨-1, some [47, 110], 2⟩ :=
  ⟨(path_converter_embedded_nul [47, 0] false).1 (by decide),
   (path_converter_embedded_nul [47, 110] false).2.1 (by decide)⟩

/-- C2: when descriptors are allowed, an integer target in
[0, INT_MAX] resolves to that descriptor; one above INT_MAX fails with
OverflowError and a negative one fails with ValueError (the class
realising InvalidArgument), never the other way around. -/
theorem fd_resolution_range (x : Int) :
    (0 ≤ x → x ≤ INT_MAX →
      path_converter true (.pyObjGen ("int") (some x) none) = .ok ⟨x, none, 0⟩)
    ∧ (INT_MAX < x →
      path_converter true (.pyObjGen ("int") (some x) none) =
        .error ⟨.overflowError, "fd is greater than maximum"⟩)
    ∧ (x < 0 →
      path_converter true (.pyObjGen ("int") (some x) none) =
        .error ⟨.valueError, "fd is negative"⟩) := by
  refine ⟨fun h0 h1 => ?_, fun h1 => ?_, fun h0 => ?_⟩ <;>
    rw [path_converter_index, fd_converter_spec]
  · rw [if_neg (by omega), if_neg (by omega)]
  · rw [if_pos h1]
  · rw [if_neg (by simp only [INT_MAX]; omega), if_pos h0]

theorem fd_resolution_range_witness :
    path_converter true (.pyObjGen ("int") (some 3) none) = .ok ⟨3, none, 0⟩
    ∧ path_converter true (.pyObjGen ("int") (some (2 ^ 31)) none) =
        .error ⟨.overflowError, "fd is greater than maximum"⟩
    ∧ path_converter true (.pyObjGen ("int") (some (-1)) none) =
        .error ⟨.valueError, "fd is negative"⟩ :=
  ⟨(fd_resolution_range 3).1 (by decide) (by decide),
   (fd_resolution_range (2 ^ 31)).2.1 (by decide),
   (fd_resolution_range (-1)).2.2 (by decide)⟩

end BtrfsUtilPy

namespace BtrfsUtilPy

/-- C3 (counterexample): an input that supports integer conversion and
also provides the fspath hook resolves as a descriptor when descriptors
are allowed, even though its hook would raise; the hook conversion is
never attempted, so the hook is not tried before integer
interpretation. -/
theorem hook_not_attempted_for_index :
    path_converter true
        (.pyObjGen ("FdToo") (some 5) (some (.error ⟨.osError, "fspath failed"⟩))) =
      .ok ⟨5, none, 0⟩
    ∧ (Except.ok (⟨5, none, 0⟩ : path_arg) : Except PyErr path_arg) ≠
        .error ⟨.osError, "fspath failed"⟩ :=
  ⟨rfl, fun hh => nomatch hh⟩

/-- C3 (amended): the resolver attempts the fspath conversion hook only
for inputs that are not textual paths, not byte paths and not (when
descriptors are allowed) integer-convertible: for such inputs the hook
is attempted and its outcome decides resolution, while for an
integer-convertible input with descriptors allowed, integer
interpretation takes precedence and the hook is ignored. -/
theorem hook_attempt_order (n : String) (e : PyErr) (b : List Nat) (x : Int)
    (h : Except PyErr PyObj) :
    (∀ af : Bool, path_converter af (.pyObjGen n none (some (.error e))) = .error e)
    ∧ (0 ∉ b → ∀ af : Bool,
        path_converter af (.pyObjGen n none (some (.ok (.pyBytes b)))) =
          .ok ⟨-1, some b, b.length⟩)
    ∧ (0 ≤ x → x ≤ INT_MAX →
        path_converter true (.pyObjGen n (some x) (some h)) = .ok ⟨x, none, 0⟩) := by
  refine ⟨fun af => ?_, fun hb af => ?_, fun h0 h1 => ?_⟩
  · rw [path_converter_hook af n none (.error e) (by simp)]
  · rw [path_converter_hook af n none (.ok (.pyBytes b)) (by simp)]
    have hl : ¬ b.length ≠ strlen b := by
      have := (strlen_eq_length_iff b).mpr hb
      omega
    simp [path_converter_body, PyBytes_Check, PyUnicode_Check, PyBytes_bytes, hl]
  · rw [path_converter_index, fd_converter_spec, if_neg (by omega), if_neg (by omega)]

theorem hook_attempt_order_witness :
    path_converter false (.pyObjGen ("P") none (some (.error ⟨.valueError, "boom"⟩))) =
      .error ⟨.valueError, "boom"⟩
    ∧ path_converter true (.pyObjGen ("P") none (some (.ok (.pyBytes [47, 120])))) =
        .ok ⟨-1, some [47, 120], 2⟩
    ∧ path_converter true (.pyObjGen ("Q") (some 7) (some (.ok (.pyBytes [47])))) =
        .ok ⟨7, none, 0⟩ :=
  ⟨(hook_attempt_order ("P") ⟨.valueError, "boom"⟩ [] 0 (.ok (.pyBytes []))).1 false,
   (hook_attempt_order ("P") ⟨.valueError, "boom"⟩ [47, 120] 0
      (.ok (.pyBytes []))).2.1 (by decide) true,
   (hook_attempt_order ("Q") ⟨.valueError, "boom"⟩ [] 7
      (.ok (.pyBytes [47]))).2.2 (by decide) (by decide)⟩

/-- C4 (counterexample): every entry of the method table documents
acceptance of an open file descriptor as the target, so it is false
that at least one of the three operations rejects a descriptor
reference. -/
theorem all_methods_accept_fd :
    btrfsutil_methods.all docAcceptsFd = true := by decide

/-- C4 (amended): descriptor acceptance is a fixed per-call-site policy
the resolver enforces through its allow_fd parameter (with allow_fd
false an integer target is rejected as a TypeError, with allow_fd true
it resolves as a descriptor), but all three operations sync, start_sync
and wait_sync accept a descriptor target, as each docstring in the
method table records. -/
theorem fd_policy_fixed (x : Int) :
    (∀ m ∈ btrfsutil_methods, docAcceptsFd m = true)
    ∧ path_converter false (.pyObjGen ("int") (some x) none) =
        .error ⟨.typeError, err_format_msg false ("int")⟩
    ∧ (0 ≤ x → x ≤ INT_MAX →
        path_converter true (.pyObjGen ("int") (some x) none) = .ok ⟨x, none, 0⟩) := by
  refine ⟨by decide, ?_, fun h0 h1 => ?_⟩
  · simp [path_converter, PyIndex_Check, PyBytes_Check, PyUnicode_Check,
      fspath_lookup, PyObj.typeName]
  · rw [path_converter_index, fd_converter_spec, if_neg (by omega), if_neg (by omega)]

theorem fd_policy_fixed_witness :
    docAcceptsFd
        ⟨"sync",
          "sync(path)\n\nSync a specific Btrfs filesystem.\n\nArguments:\npath -- string, bytes, path-like object, or open file descriptor"⟩ = true
    ∧ path_converter true (.pyObjGen ("int") (some 3) none) = .ok ⟨3, none, 0⟩ :=
  ⟨(fd_policy_fixed 3).1
      ⟨"sync",
        "sync(path)\n\nSync a specific Btrfs filesystem.\n\nArguments:\npath -- string, bytes, path-like object, or open file descriptor"⟩
      (by decide),
   (fd_policy_fixed 3).2.2 (by decide) (by decide)⟩

/-- C5: an input that is none of the accepted shapes fails with a
TypeError whose message names exactly the accepted shapes for the call
site (the err_format message over the accepted_types list), and that
list names the integer shape precisely when descriptors are allowed:
an object with neither path nor hook nor integer support always fails
this way, and an integer-convertible object fails this way when
descriptors are not allowed. -/
theorem type_error_names_accepted (af : Bool) (n : String) :
    path_converter af (.pyObjGen n none none) =
      .error ⟨.typeError, err_format_msg af n⟩
    ∧ (∀ x : Int, path_converter false (.pyObjGen n (some x) none) =
        .error ⟨.typeError, err_format_msg false n⟩)
    ∧ strContains (accepted_types af) ("integer") = af := by
  refine ⟨?_, fun x => ?_, ?_⟩
  · simp [path_converter, PyIndex_Check, PyBytes_Check, PyUnicode_Check,
      fspath_lookup, PyObj.typeName]
  · simp [path_converter, PyIndex_Check, PyBytes_Check, PyUnicode_Check,
      fspath_lookup, PyObj.typeName]
  · cases af <;> decide

/-- C6: a path-like input whose fspath hook raises propagates the hook's
own error unchanged from resolution: the result is exactly that error,
whatever its class and message, and is not reinterpreted as a
TypeError about the input shape. -/
theorem hook_error_propagated (n : String) (e : PyErr) (af : Bool) :
    path_converter af (.pyObjGen n none (some (.error e))) = .error e := by
  rw [path_converter_hook af n none (.error e) (by simp)]

/-- C7: module initialization derives the dedicated error type from the
host's generic OS-error category (its tp_base is OSError, a class
distinct from TypeError and from ValueError), and the control error it
realises carries exactly the operation, the optional path, and the
system error code. -/
theorem btrfsutil_error_model :
    PyInit_btrfsutil.errorType.tp_base = some ErrClass.osError
    ∧ ErrClass.osError ≠ ErrClass.typeError
    ∧ ErrClass.osError ≠ ErrClass.valueError
    ∧ ∀ (op : String) (p : Option (List Nat)) (c : Int),
        (mkControlError op p c).operation = op
        ∧ (mkControlError op p c).path = p
        ∧ (mkControlError op p c).system_error_code = c :=
  ⟨rfl, by decide, by decide, fun op p c => ⟨rfl, rfl, rfl⟩⟩

/-- C8: for every target, calling wait_sync with the transaction
identifier explicitly given as 0 is the same call as omitting it: the
default value 0 round-trips. -/
theorem wait_sync_default_transid (target : PyObj) :
    wait_sync target (some 0) = wait_sync target none := rfl

/-- C9: for every target and every negative transaction identifier,
wait_sync fails with the ValueError class realising InvalidArgument;
the result is an error and never a SysRequest, so the underlying
filesystem is not contacted. -/
theorem wait_sync_negative_rejected (target : PyObj) (t : Int) (h : t < 0) :
    wait_sync target (some t) =
      .error ⟨.valueError, "transaction id must be non-negative"⟩ := by
  simp [wait_sync, Option.getD, h]

theorem wait_sync_negative_rejected_witness :
    wait_sync (.pyBytes [47]) (some (-1)) =
      .error ⟨.valueError, "transaction id must be non-negative"⟩ :=
  wait_sync_negative_rejected (.pyBytes [47]) (-1) (by decide)

/-- C10: every successful resolution populates exactly one variant of
the resolved handle: either the descriptor field is non-negative and
the path field is the NULL pointer (descriptor case), or the path field
points at a byte string and the descriptor field is -1 (path case). -/
theorem resolved_handle_exclusive (af : Bool) (o : PyObj) (r : path_arg)
    (h : path_converter af o = .ok r) :
    (0 ≤ r.fd ∧ r.path = none) ∨ (r.fd = -1 ∧ ∃ b : List Nat, r.path = some b) := by
  simp only [path_converter] at h
  split at h
  · split at h
    · exact Except.noConfusion h
    · exact Except.noConfusion h
    · exact path_converter_body_ok _ _ _ _ _ _ h
  · exact path_converter_body_ok _ _ _ _ _ _ h

theorem resolved_handle_exclusive_witness :
    (0 ≤ (path_arg.mk (-1) (some [47]) 1).fd
      ∧ (path_arg.mk (-1) (some [47]) 1).path = none)
    ∨ ((path_arg.mk (-1) (some [47]) 1).fd = -1
      ∧ ∃ b : List Nat, (path_arg.mk (-1) (some [47]) 1).path = some b) :=
  resolved_handle_exclusive true (.pyBytes [47]) ⟨-1, some [47], 1⟩ rfl

end BtrfsUtilPy
